import Mathlib

/-!
Shallow embedding of the clinic appointment-booking backend
(`src/server/routes/booking.js`, `src/server/models/db.js`,
`src/server/utils/date.utils.js`, `src/server/controllers/booking.controller.js`).

Representation conventions used throughout this development:
* `HH:MM:SS` time-of-day values stored in the database are represented as
  minutes-since-midnight (`Nat`).  All stored times are fixed-width
  zero-padded strings in the source, so lexicographic string comparison
  (used by the JavaScript code and by MySQL on `TIME` values) agrees with
  numeric comparison on the minute values; the spec itself relies on this
  equivalence (§4.1 step 7).
* Strings that the code manipulates character by character (time strings
  being parsed or produced, date strings, validation regexes) are modelled
  as genuine Lean `String`s / `List Char`, with hand-rolled structural
  helpers (`splitOnChar`, `jsStrToNat`, `decDigits`) so that every
  definition evaluates by kernel reduction.
* JavaScript `Number(s)` is modelled by `jsStrToNat` for the inputs that
  occur here: the empty string parses to `0` (as in JS) and any string of
  decimal digits parses to its value; any other character yields `none`,
  standing for JS `NaN`.
* JavaScript `Date` values are modelled as an instant measured in minutes
  since the Unix epoch (`Int`), together with an explicit constant
  process-local timezone offset `tz` (minutes east of UTC).
-/

/-- Split a list of characters on a separator character.  Model of JS
`String.prototype.split(sep)` for a one-character separator: always returns
at least one (possibly empty) segment. -/
def splitOnChar (sep : Char) : List Char → List (List Char)
  | [] => [[]]
  | c :: cs =>
    match splitOnChar sep cs with
    | [] => [[]]
    | seg :: segs => if c = sep then [] :: seg :: segs else (c :: seg) :: segs

/-- Model of JavaScript `Number(s)` on the strings that occur in this code
base: the empty string yields `0`, a string of decimal digits yields its
value, and anything else yields `none` (JS `NaN`). -/
def jsDigitStep (acc : Option Nat) (c : Char) : Option Nat :=
  match acc with
  | none => none
  | some a => if c.isDigit then some (a * 10 + (c.toNat - 48)) else none

def jsStrToNat (l : List Char) : Option Nat :=
  l.foldl jsDigitStep (some 0)

/-- Decimal digit list of `n`, most significant first; `fuel` bounds the
recursion (any `fuel > n` is enough).  Model of JS `n.toString()` for a
non-negative integer. -/
def decDigits : Nat → Nat → List Char
  | 0, _ => []
  | fuel + 1, n =>
    if n < 10 then [Nat.digitChar n]
    else decDigits fuel (n / 10) ++ [Nat.digitChar (n % 10)]

/-- Model of JS `n.toString()` for a `Nat`. -/
def jsNatToString (n : Nat) : String :=
  String.mk (decDigits (n + 1) n)

/-- Model of JS `s.padStart(2, '0')`. -/
def padStart2 (s : String) : String :=
  if s.length < 2 then "0" ++ s else s

/-- `n.toString().padStart(2, '0')`, the formatting step used everywhere a
time component is printed. -/
def pad2 (n : Nat) : String :=
  padStart2 (jsNatToString n)

/-- Minutes-since-midnight extracted from an `HH:MM[:SS]` string the way the
source does it (`split(':')` then `Number`/`parseInt` on the first two
components, `h * 60 + m`).  Returns `none` when a component is missing or
not numeric (JS `NaN`). -/
def minutesOfTime (s : String) : Option Nat :=
  match splitOnChar ':' s.data with
  | h :: m :: _ =>
    match jsStrToNat h, jsStrToNat m with
    | some hv, some mv => some (hv * 60 + mv)
    | _, _ => none
  | _ => none

/-! ### Calendar arithmetic and the JavaScript `Date` model (C1)

`src/server/utils/date.utils.js:84-91` (`parseLocalDate`) builds
`new Date(year, month - 1, day)`, i.e. local midnight of the civil date;
`src/server/models/db.js:369` builds `new Date("YYYY-MM-DD")`, which
ECMAScript parses as **UTC** midnight.  `Date.prototype.getDay()` is
`WeekDay(LocalTime(t)) = (floor((t + tz) / msPerDay) + 4) mod 7`. -/

/-- Days since 1970-01-01 of the civil date `(y, m, d)` (proleptic
Gregorian; the civil-from-days algorithm used by every date library,
here for years ≥ 1). -/
def daysFromCivil (y m d : Nat) : Int :=
  let y' : Int := (y : Int) - (if m ≤ 2 then 1 else 0)
  let era : Int := y'.fdiv 400
  let yoe : Int := y' - era * 400
  let mp : Int := ((m : Int) + 9) % 12
  let doy : Int := (153 * mp + 2).fdiv 5 + (d : Int) - 1
  let doe : Int := yoe * 365 + yoe.fdiv 4 - yoe.fdiv 100 + doy
  era * 146097 + doe - 719468

/-- JS `WeekDay` of an instant `t` (minutes since epoch) as observed by
`getDay()` in a process whose local timezone is `tz` minutes east of UTC:
`(floor(localDays) + 4) mod 7`; `0 = Sunday`. -/
def jsGetDay (tz t : Int) : Int :=
  ((t + tz).fdiv 1440 + 4) % 7

/-- Instant produced by `new Date(y, m - 1, d)` (local midnight), the
construction used by `parseLocalDate` in the available-slots route. -/
def jsDateFromComponents (tz : Int) (y m d : Nat) : Int :=
  daysFromCivil y m d * 1440 - tz

/-- Instant produced by `new Date("YYYY-MM-DD")` (UTC midnight per the
ECMAScript date-time string format), the construction used by
`db.getAvailableTimeSlots`. -/
def jsDateFromString (y m d : Nat) : Int :=
  daysFromCivil y m d * 1440

/-- `dayNames` array from the source. -/
def dayNames : List String :=
  ["Sunday", "Monday", "Tuesday", "Wednesday", "Thursday", "Friday", "Saturday"]

/-- Weekday index computed by the available-slots route handler
(`booking.js:51-53`): `parseLocalDate(date).getDay()` in a process with
timezone offset `tz`. -/
def routeGetDay (tz : Int) (y m d : Nat) : Int :=
  jsGetDay tz (jsDateFromComponents tz y m d)

/-- Weekday index computed by `db.getAvailableTimeSlots`
(`db.js:369-371`): `new Date(date).getDay()` in a process with timezone
offset `tz`. -/
def dbGetDay (tz : Int) (y m d : Nat) : Int :=
  jsGetDay tz (jsDateFromString y m d)

/-- Weekday name used by the route handler. -/
def routeDayName (tz : Int) (y m d : Nat) : String :=
  dayNames.getD (routeGetDay tz y m d).toNat ""

/-- Weekday name used by `db.getAvailableTimeSlots`. -/
def dbDayName (tz : Int) (y m d : Nat) : String :=
  dayNames.getD (dbGetDay tz y m d).toNat ""

/-! ### Data model -/

/-- Row of the `services` table (fields used by the engine). -/
structure Service where
  service_id : String
  duration_minutes : Nat
  is_active : Bool
deriving DecidableEq, Repr

/-- Row of the `appointments` table; `start_time`/`end_time` are
minutes-since-midnight (see the representation note at the top). -/
structure Appointment where
  full_name : String
  email : String
  phone : String
  service_id : String
  appointment_date : String
  start_time : Nat
  end_time : Nat
  additional_notes : String
  status : String
deriving DecidableEq, Repr

/-- Row of the `business_hours` table; open/close as minutes. -/
structure BusinessHours where
  day_of_week : String
  is_open : Bool
  open_minutes : Nat
  close_minutes : Nat
deriving DecidableEq, Repr

/-- The relational state the engine reads and the booking transaction
mutates. -/
structure DBState where
  services : List Service
  business_hours : List BusinessHours
  appointments : List Appointment
  blocked_dates : List String
deriving Repr

/-! ### Slot generation (`booking.js:105-140` and `db.js:406-474`)

Both loops iterate `minutes` from `openMinutes` to `closeMinutes` in steps
of 30 and push `minutes` when the guard passes; this is the filter of the
arithmetic grid `range' open n 30` with `n = ⌈(close - open) / 30⌉`. -/

/-- The 30-minute candidate grid `open, open+30, ...` while `< close`. -/
def slotGrid (openM closeM : Nat) : List Nat :=
  List.range' openM ((closeM - openM + 29) / 30) 30

/-- Half-open-interval overlap test of the candidate `[s, s+dur)` against a
booked appointment, exactly as in the source
(`(timeSlot < bookingEnd) && (endTimeSlot > bookingStart)`,
`booking.js:131`, `db.js:442`). -/
def slotOverlaps (s endS : Nat) (b : Appointment) : Bool :=
  decide (s < b.end_time) && decide (endS > b.start_time)

/-- Slot list produced by the `GET /api/booking/available-slots` route
handler loop (`booking.js:105-140`): keep a grid point when its end does
not pass closing time and it overlaps no booked appointment. -/
def routeSlots (openM closeM dur : Nat) (booked : List Appointment) : List Nat :=
  (slotGrid openM closeM).filter fun s =>
    decide (s + dur ≤ closeM) && !(booked.any (slotOverlaps s (s + dur)))

/-- Buffer demanded by `db.getAvailableTimeSlots` after a service whose
duration is not a multiple of 30 (`db.js:449`). -/
def bufferMinutes (dur : Nat) : Nat :=
  if dur % 30 = 0 then 0 else 30 - dur % 30

/-- `hasProperBuffer` check of `db.js:452-467`: only evaluated when the
buffer is positive and the slot itself does not overlap; fails when some
booking starts inside the buffer window after the slot ends. -/
def hasProperBuffer (endS dur : Nat) (booked : List Appointment)
    (overlapping : Bool) : Bool :=
  if bufferMinutes dur > 0 && !overlapping then
    !(booked.any fun b =>
      decide (endS + bufferMinutes dur > b.start_time) && decide (endS ≤ b.start_time))
  else true

/-- Slot list produced by `db.getAvailableTimeSlots` (`db.js:406-474`):
the route condition plus the undocumented buffer check. -/
def dbSlots (openM closeM dur : Nat) (booked : List Appointment) : List Nat :=
  (slotGrid openM closeM).filter fun s =>
    let ov := booked.any (slotOverlaps s (s + dur))
    decide (s + dur ≤ closeM) && (!ov && hasProperBuffer (s + dur) dur booked ov)

/-! ### Input validation and sanitization (`db.js:187-236`) -/

/-- Whitespace for JS `trim` / the regex class `\s` (the forms occurring
here). -/
def isJsSpace (c : Char) : Bool :=
  c == ' ' || c == '\t' || c == '\n' || c == '\r'

/-- A character removed by `sanitizeInput`'s control-character replace
(`[\x00-\x1F\x7F-\x9F]`, `db.js:132`). -/
def isCtrlChar (c : Char) : Bool :=
  decide (c.toNat ≤ 0x1F) || (decide (0x7F ≤ c.toNat) && decide (c.toNat ≤ 0x9F))

/-- `db.sanitizeInput` on a string: `trim()`, strip control characters,
`substring(0, 1000)` (`db.js:128-136`). -/
def sanitizeInput (s : String) : String :=
  let trimmed := ((s.data.dropWhile isJsSpace).reverse.dropWhile isJsSpace).reverse
  String.mk ((trimmed.filter fun c => !isCtrlChar c).take 1000)

/-- Regex `^\d{4}-\d{2}-\d{2}$` (`db.js:210`, `booking.js:23`). -/
def dateFormatOk (s : String) : Bool :=
  match s.data with
  | [y1, y2, y3, y4, h1, m1, m2, h2, d1, d2] =>
    y1.isDigit && y2.isDigit && y3.isDigit && y4.isDigit && h1 == '-' &&
    m1.isDigit && m2.isDigit && h2 == '-' && d1.isDigit && d2.isDigit
  | _ => false

/-- Regex `^\d{2}:\d{2}:\d{2}$` (`db.js:216`). -/
def timeFormatOk (s : String) : Bool :=
  match s.data with
  | [h1, h2, c1, m1, m2, c2, s1, s2] =>
    h1.isDigit && h2.isDigit && c1 == ':' && m1.isDigit && m2.isDigit &&
    c2 == ':' && s1.isDigit && s2.isDigit
  | _ => false

/-- Regex `^[a-zA-Z0-9_-]+$` (`db.js:222`). -/
def serviceIdFormatOk (s : String) : Bool :=
  !s.data.isEmpty && s.data.all fun c => c.isAlpha || c.isDigit || c == '_' || c == '-'

/-- Regex `^[^\s@]+@[^\s@]+\.[^\s@]+$` (`db.js:198`): exactly one `@`,
non-empty space-free halves, and a `.` strictly inside the domain half
(the engine backtracks, so any interior dot position works). -/
def emailFormatOk (s : String) : Bool :=
  match splitOnChar '@' s.data with
  | [p1, p2] =>
    !p1.isEmpty && p1.all (fun c => !isJsSpace c) &&
    !p2.isEmpty && p2.all (fun c => !isJsSpace c) &&
    ((p2.drop 1).dropLast.contains '.')
  | _ => false

/-- Regex `^[\d\s\-\+\(\)]{10,15}$` (`db.js:204`). -/
def phoneFormatOk (s : String) : Bool :=
  decide (10 ≤ s.data.length) && decide (s.data.length ≤ 15) &&
  s.data.all fun c => c.isDigit || isJsSpace c || c == '-' || c == '+' || c == '(' || c == ')'

/-! ### Booking transaction (`db.createAppointment`, `db.js:187-336`) -/

/-- Request body handed to `db.createAppointment`. -/
structure BookingData where
  fullName : String
  email : String
  phone : String
  serviceId : String
  appointmentDate : String
  startTime : String
  additionalNotes : Option String
deriving Repr

/-- First required field that is falsy (empty), in the order of the
`requiredFields` loop (`db.js:190-195`). -/
def missingRequiredField (b : BookingData) : Option String :=
  if b.fullName = "" then some "fullName"
  else if b.email = "" then some "email"
  else if b.phone = "" then some "phone"
  else if b.serviceId = "" then some "serviceId"
  else if b.appointmentDate = "" then some "appointmentDate"
  else if b.startTime = "" then some "startTime"
  else none

/-- The conflict condition of the availability `WHERE` clause in
`db.createAppointment` (`db.js:266-283`) against one existing appointment:
existing row is `[c, d)`, requested interval is `[a, b)`, and the SQL reads
`(c <= b AND d > a) OR (c < b AND d >= a) OR (c >= a AND d <= b)`. -/
def sqlConflict (a b c d : Nat) : Bool :=
  (decide (c ≤ b) && decide (d > a)) ||
  (decide (c < b) && decide (d ≥ a)) ||
  (decide (c ≥ a) && decide (d ≤ b))

/-- The half-open-interval overlap predicate named by the spec:
`[a,b)` and `[c,d)` overlap iff `a < d` and `b > c`. -/
def halfOpenOverlap (a b c d : Nat) : Prop :=
  a < d ∧ b > c

instance (a b c d : Nat) : Decidable (halfOpenOverlap a b c d) := by
  unfold halfOpenOverlap; infer_instance

/-- End-time string computed by `db.createAppointment` (`db.js:252-263`):
split the start time, do the minute arithmetic, re-pad.  (The `seconds`
component is carried through unchanged from the parsed start time.) -/
def computeEndTime (startTime : String) (dur : Nat) : String :=
  let parts := splitOnChar ':' startTime.data
  let hours := (jsStrToNat (parts.getD 0 [])).getD 0
  let minutes := (jsStrToNat (parts.getD 1 [])).getD 0
  let seconds := (jsStrToNat (parts.getD 2 [])).getD 0
  let startMinutes := hours * 60 + minutes
  let endMinutes := startMinutes + dur
  pad2 (endMinutes / 60) ++ ":" ++ pad2 (endMinutes % 60) ++ ":" ++ pad2 seconds

/-- Start minutes parsed out of the request's `HH:MM:SS` start time
(`db.js:254-257`). -/
def bookingStartMinutes (b : BookingData) : Nat :=
  (minutesOfTime b.startTime).getD 0

/-- The existing rows the availability `WHERE` clause of
`db.createAppointment` matches: same date, not cancelled, and satisfying
`sqlConflict` against the requested interval (`db.js:266-285`). -/
def conflictingAppointments (st : DBState) (b : BookingData) (dur : Nat) :
    List Appointment :=
  st.appointments.filter fun ap =>
    ap.appointment_date == b.appointmentDate && ap.status != "cancelled" &&
    sqlConflict (bookingStartMinutes b) (bookingStartMinutes b + dur)
      ap.start_time ap.end_time

/-- The row inserted by `db.createAppointment` on success
(`db.js:302-327`): sanitized text fields, the raw date and start time,
`end = start + duration`, status hard-coded to `'confirmed'`. -/
def insertedRow (b : BookingData) (svc : Service) : Appointment :=
  { full_name := sanitizeInput b.fullName
    email := sanitizeInput b.email
    phone := sanitizeInput b.phone
    service_id := sanitizeInput b.serviceId
    appointment_date := b.appointmentDate
    start_time := bookingStartMinutes b
    end_time := bookingStartMinutes b + svc.duration_minutes
    additional_notes := sanitizeInput (b.additionalNotes.getD "")
    status := "confirmed" }

/-- `db.createAppointment` (`db.js:187-336`) as a state transformer.
Returns the (possibly updated) appointment ledger together with either the
new row id (`result.insertId`, modelled as the next index) or the thrown
error message.  All validations run before storage is touched; the
ledger is only modified by the final `INSERT`. -/
def createAppointment (st : DBState) (b : BookingData) : DBState × Except String Nat :=
  match missingRequiredField b with
  | some f => (st, .error ("Missing required field: " ++ f))
  | none =>
    if !emailFormatOk b.email then (st, .error "Invalid email format")
    else if !phoneFormatOk b.phone then (st, .error "Invalid phone format")
    else if !dateFormatOk b.appointmentDate then (st, .error "Invalid date format")
    else if !timeFormatOk b.startTime then (st, .error "Invalid time format")
    else if !serviceIdFormatOk b.serviceId then (st, .error "Invalid service ID format")
    else
      match st.services.find?
          (fun sv => sv.service_id == sanitizeInput b.serviceId && sv.is_active) with
      | none => (st, .error "Invalid or inactive service")
      | some svc =>
        if (conflictingAppointments st b svc.duration_minutes).length > 0 then
          (st, .error "Selected time slot is already booked")
        else if st.blocked_dates.contains b.appointmentDate then
          (st, .error "Selected date is not available for booking")
        else
          ({ st with appointments := st.appointments ++ [insertedRow b svc] },
           .ok (st.appointments.length + 1))

/-! ### `GET /api/booking/available-slots` route handler
(`booking.js:11-153`) -/

/-- The distinct HTTP responses the handler can produce.
`badRequest` is a 400, `blockedDate` and `closedDay` are 200 with
`{availableSlots: [], message}`, `notFound` is a 404, and `ok` is a 200
with `{availableSlots, requestedDate}` (and no `message` field). -/
inductive SlotsResponse where
  | badRequest (msg : String)
  | blockedDate (msg : String)
  | closedDay (msg : String)
  | notFound (msg : String)
  | ok (availableSlots : List Nat) (requestedDate : String)
deriving DecidableEq, Repr

/-- JS falsiness of an optional query/body string: absent (`undefined`)
or empty. -/
def isFalsyStr : Option String → Bool
  | none => true
  | some s => s = ""

/-- `(year, month, day)` as split out of a `YYYY-MM-DD` string by
`parseLocalDate` (`date.utils.js:84-91`); used only after the date-format
regex has accepted the string, so every component is numeric. -/
def parseDateComponents (date : String) : Nat × Nat × Nat :=
  let parts := splitOnChar '-' date.data
  ((jsStrToNat (parts.getD 0 [])).getD 0,
   (jsStrToNat (parts.getD 1 [])).getD 0,
   (jsStrToNat (parts.getD 2 [])).getD 0)

/-- The available-slots route handler (`booking.js:11-153`), in source
order: required params, date-format regex, blocked-date check, weekday via
`parseLocalDate(date).getDay()`, business-hours check, active-service
lookup (404), then the slot-generation loop.  `tz` is the process-local
timezone offset. -/
def availableSlotsHandler (tz : Int) (st : DBState)
    (dateQ serviceIdQ : Option String) : SlotsResponse :=
  if isFalsyStr dateQ || isFalsyStr serviceIdQ then
    .badRequest "Date and service ID are required"
  else
    let date := dateQ.getD ""
    let serviceId := serviceIdQ.getD ""
    if !dateFormatOk date then
      .badRequest "Invalid date format. Use YYYY-MM-DD."
    else if st.blocked_dates.contains date then
      .blockedDate "This date is not available for booking"
    else
      let c := parseDateComponents date
      let dayOfWeek := routeDayName tz c.1 c.2.1 c.2.2
      match st.business_hours.find? (fun bh => bh.day_of_week == dayOfWeek) with
      | none => .closedDay "The office is closed on this day"
      | some bh =>
        if !bh.is_open then
          .closedDay "The office is closed on this day"
        else
          match st.services.find? (fun sv => sv.service_id == serviceId && sv.is_active) with
          | none => .notFound "Service not found or inactive"
          | some svc =>
            let dur := if svc.duration_minutes = 0 then 30 else svc.duration_minutes
            let booked := st.appointments.filter fun ap =>
              ap.appointment_date == date && ap.status != "cancelled"
            .ok (routeSlots bh.open_minutes bh.close_minutes dur booked) date

/-! ### `formatTimeString` (`date.utils.js:7-28`) and the controller's
time normalization (`booking.controller.js:266-272`) -/

/-- A JavaScript argument as far as `typeof x !== 'string'` can tell. -/
inductive JsInput where
  | str (s : String)
  | nonString
deriving DecidableEq, Repr

/-- The space-splitting and component extraction at the top of
`formatTimeString` (`date.utils.js:10-19`): if no period was passed and
the string has a space, the part after the first space becomes the period;
then `split(':')` and `Number` the first two components.  Returns
`(hours, minutes, period)`, `none` standing for JS `NaN`/`undefined`. -/
def ftsParse (ts0 : String) (p0 : Option String) :
    Option Nat × Option Nat × Option String :=
  let sp :=
    if isFalsyStr p0 && ts0.data.contains ' ' then
      let parts := splitOnChar ' ' ts0.data
      (parts.getD 0 [], (parts.get? 1).map String.mk)
    else (ts0.data, p0)
  let comps := splitOnChar ':' sp.1
  ((comps.get? 0).bind jsStrToNat, (comps.get? 1).bind jsStrToNat, sp.2)

/-- The AM/PM adjustment of `date.utils.js:21-25`. -/
def adjustHours (h : Nat) (p : Option String) : Nat :=
  if p = some "PM" && h ≠ 12 then h + 12
  else if p = some "AM" && h = 12 then 0
  else h

/-- `formatTimeString` (`date.utils.js:7-28`). -/
def formatTimeStringFn (v : JsInput) (p : Option String) : String :=
  match v with
  | .nonString => "00:00:00"
  | .str ts =>
    match ftsParse ts p with
    | (some h, some m, period) => pad2 (adjustHours h period) ++ ":" ++ pad2 m ++ ":00"
    | _ => "00:00:00"

/-- The controller's submitted-time normalization
(`booking.controller.js:266-272`): a time without a colon goes through
`formatTimeString`; `HH:MM` gets `":00"` appended; anything else is kept. -/
def normalizeSubmittedTime (time : String) : String :=
  if time ≠ "" && !time.data.contains ':' then
    formatTimeStringFn (.str time) none
  else if time ≠ "" && (splitOnChar ':' time.data).length = 2 then
    time ++ ":00"
  else time

/-! ### Concrete states used by witnesses and counterexamples -/

/-- An existing confirmed appointment 10:00-10:30 on 2024-01-01. -/
def apptW : Appointment :=
  { full_name := "Jane Doe", email := "jane@example.com", phone := "0412000000"
    service_id := "clean", appointment_date := "2024-01-01"
    start_time := 600, end_time := 630, additional_notes := ""
    status := "confirmed" }

/-- A 45-minute active service. -/
def svcW : Service := { service_id := "checkup", duration_minutes := 45, is_active := true }

/-- State with just the 45-minute service. -/
def stW : DBState :=
  { services := [svcW], business_hours := [], appointments := [], blocked_dates := [] }

/-- A fully valid booking request for `svcW`. -/
def bW : BookingData :=
  { fullName := "John Smith", email := "john@example.com", phone := "0412345678"
    serviceId := "checkup", appointmentDate := "2024-06-10"
    startTime := "14:00:00", additionalNotes := none }

/-- A 30-minute active service. -/
def svcC5 : Service := { service_id := "clean", duration_minutes := 30, is_active := true }

/-- A business-hours row violating `open < close` (open 10:00, close 09:00). -/
def bhC5 : BusinessHours :=
  { day_of_week := "Monday", is_open := true, open_minutes := 600, close_minutes := 540 }

/-- State whose Monday hours have `open > close`. -/
def stC5 : DBState :=
  { services := [svcC5], business_hours := [bhC5], appointments := [], blocked_dates := [] }

/-- State where 2024-01-08 (a Monday) is blocked. -/
def stC6 : DBState :=
  { services := [svcC5], business_hours := [], appointments := []
    blocked_dates := ["2024-01-08"] }

/-- State with no services where 2024-01-01 is blocked. -/
def stC7 : DBState :=
  { services := [], business_hours := [], appointments := []
    blocked_dates := ["2024-01-01"] }

/-- An ordinary open-Monday business-hours row (09:00-17:00). -/
def bhMon : BusinessHours :=
  { day_of_week := "Monday", is_open := true, open_minutes := 540, close_minutes := 1020 }

/-- State with open Monday hours but an empty service catalog. -/
def stC7b : DBState :=
  { services := [], business_hours := [bhMon], appointments := [], blocked_dates := [] }


/-! ### Supporting theorems -/

theorem routeGetDay_tz_invariant (tz tz' : Int) (y m d : Nat) :
    routeGetDay tz y m d = routeGetDay tz' y m d := by
  unfold routeGetDay jsGetDay jsDateFromComponents
  have h : ∀ z : Int, daysFromCivil y m d * 1440 - z + z = daysFromCivil y m d * 1440 := by
    intro z; ring
  rw [h, h]

/-! ### Soundness of the generated slots (C2) and the relation between the
two generators (C9) -/

theorem slotGrid_le {o c s : Nat} (h : s ∈ slotGrid o c) : o ≤ s := by
  unfold slotGrid at h
  rw [List.mem_range'] at h
  obtain ⟨i, _, rfl⟩ := h
  exact Nat.le_add_right _ _

theorem mem_routeSlots {o c dur : Nat} {bk : List Appointment} {s : Nat}
    (h : s ∈ routeSlots o c dur bk) :
    o ≤ s ∧ s + dur ≤ c ∧
      ∀ b ∈ bk, ¬ halfOpenOverlap s (s + dur) b.start_time b.end_time := by
  unfold routeSlots at h
  rw [List.mem_filter] at h
  obtain ⟨hg, hp⟩ := h
  refine ⟨slotGrid_le hg, ?_, ?_⟩
  · have := (Bool.and_eq_true _ _).mp hp |>.1
    exact of_decide_eq_true this
  · have hov := (Bool.and_eq_true _ _).mp hp |>.2
    rw [Bool.not_eq_true'] at hov
    rw [List.any_eq_false] at hov
    intro b hb hover
    apply hov b hb
    unfold slotOverlaps
    rw [Bool.and_eq_true, decide_eq_true_eq, decide_eq_true_eq]
    exact ⟨hover.1, hover.2⟩

theorem mem_dbSlots {o c dur : Nat} {bk : List Appointment} {s : Nat}
    (h : s ∈ dbSlots o c dur bk) :
    o ≤ s ∧ s + dur ≤ c ∧
      ∀ b ∈ bk, ¬ halfOpenOverlap s (s + dur) b.start_time b.end_time := by
  unfold dbSlots at h
  rw [List.mem_filter] at h
  obtain ⟨hg, hp⟩ := h
  rw [Bool.and_eq_true, Bool.and_eq_true] at hp
  refine ⟨slotGrid_le hg, of_decide_eq_true hp.1, ?_⟩
  have hov := hp.2.1
  rw [Bool.not_eq_true'] at hov
  rw [List.any_eq_false] at hov
  intro b hb hover
  apply hov b hb
  unfold slotOverlaps
  rw [Bool.and_eq_true, decide_eq_true_eq, decide_eq_true_eq]
  exact ⟨hover.1, hover.2⟩

theorem dbSlots_sublist_routeSlots (o c dur : Nat) (bk : List Appointment) :
    (dbSlots o c dur bk).Sublist (routeSlots o c dur bk) := by
  unfold dbSlots routeSlots
  apply List.monotone_filter_right
  intro s hs
  rw [Bool.and_eq_true] at hs ⊢
  exact ⟨hs.1, (Bool.and_eq_true _ _).mp hs.2 |>.1⟩

theorem dbSlots_eq_routeSlots_of_dvd (o c dur : Nat) (bk : List Appointment)
    (hdvd : dur % 30 = 0) :
    dbSlots o c dur bk = routeSlots o c dur bk := by
  unfold dbSlots routeSlots
  apply List.filter_congr
  intro s _
  have hbuf : bufferMinutes dur = 0 := by unfold bufferMinutes; simp [hdvd]
  have hbufOk : ∀ ov, hasProperBuffer (s + dur) dur bk ov = true := by
    intro ov
    unfold hasProperBuffer
    rw [hbuf]
    simp
  show (decide (s + dur ≤ c) &&
      (!bk.any (slotOverlaps s (s + dur)) &&
        hasProperBuffer (s + dur) dur bk (bk.any (slotOverlaps s (s + dur))))) =
    (decide (s + dur ≤ c) && !bk.any (slotOverlaps s (s + dur)))
  rw [hbufOk, Bool.and_true]

/-! ### Branch behaviour of the booking transaction (C4) -/

theorem createAppointment_error_state {st : DBState} {b : BookingData} {e : String}
    (h : (createAppointment st b).2 = .error e) :
    (createAppointment st b).1 = st := by
  revert h
  unfold createAppointment
  repeat' split
  all_goals intro h
  all_goals first | rfl | simp_all

theorem createAppointment_service_missing {st : DBState} {b : BookingData}
    (hm : missingRequiredField b = none)
    (he : emailFormatOk b.email = true)
    (hp : phoneFormatOk b.phone = true)
    (hd : dateFormatOk b.appointmentDate = true)
    (ht : timeFormatOk b.startTime = true)
    (hs : serviceIdFormatOk b.serviceId = true)
    (hfind : st.services.find?
      (fun sv => sv.service_id == sanitizeInput b.serviceId && sv.is_active) = none) :
    createAppointment st b = (st, .error "Invalid or inactive service") := by
  unfold createAppointment
  rw [hm]
  simp [he, hp, hd, ht, hs, hfind]

theorem createAppointment_conflict {st : DBState} {b : BookingData} {svc : Service}
    (hm : missingRequiredField b = none)
    (he : emailFormatOk b.email = true)
    (hp : phoneFormatOk b.phone = true)
    (hd : dateFormatOk b.appointmentDate = true)
    (ht : timeFormatOk b.startTime = true)
    (hs : serviceIdFormatOk b.serviceId = true)
    (hfind : st.services.find?
      (fun sv => sv.service_id == sanitizeInput b.serviceId && sv.is_active) = some svc)
    (hc : (conflictingAppointments st b svc.duration_minutes).length > 0) :
    createAppointment st b = (st, .error "Selected time slot is already booked") := by
  unfold createAppointment
  rw [hm]
  simp [he, hp, hd, ht, hs, hfind, hc]

theorem createAppointment_blocked {st : DBState} {b : BookingData} {svc : Service}
    (hm : missingRequiredField b = none)
    (he : emailFormatOk b.email = true)
    (hp : phoneFormatOk b.phone = true)
    (hd : dateFormatOk b.appointmentDate = true)
    (ht : timeFormatOk b.startTime = true)
    (hs : serviceIdFormatOk b.serviceId = true)
    (hfind : st.services.find?
      (fun sv => sv.service_id == sanitizeInput b.serviceId && sv.is_active) = some svc)
    (hc : conflictingAppointments st b svc.duration_minutes = [])
    (hb : b.appointmentDate ∈ st.blocked_dates) :
    createAppointment st b = (st, .error "Selected date is not available for booking") := by
  unfold createAppointment
  rw [hm]
  simp [he, hp, hd, ht, hs, hfind, hc, hb]

theorem createAppointment_success {st : DBState} {b : BookingData} {svc : Service}
    (hm : missingRequiredField b = none)
    (he : emailFormatOk b.email = true)
    (hp : phoneFormatOk b.phone = true)
    (hd : dateFormatOk b.appointmentDate = true)
    (ht : timeFormatOk b.startTime = true)
    (hs : serviceIdFormatOk b.serviceId = true)
    (hfind : st.services.find?
      (fun sv => sv.service_id == sanitizeInput b.serviceId && sv.is_active) = some svc)
    (hc : conflictingAppointments st b svc.duration_minutes = [])
    (hb : b.appointmentDate ∉ st.blocked_dates) :
    createAppointment st b =
      ({ st with appointments := st.appointments ++ [insertedRow b svc] },
       .ok (st.appointments.length + 1)) := by
  unfold createAppointment
  rw [hm]
  simp [he, hp, hd, ht, hs, hfind, hc, hb]

/-! ### Printing / parsing round trips for time strings (C8) -/

theorem digitChar_spec : ∀ n, n < 10 →
    (Nat.digitChar n).isDigit = true ∧ (Nat.digitChar n).toNat - 48 = n := by
  decide

theorem decDigits_foldl (fuel : Nat) : ∀ n a, n < fuel →
    (decDigits fuel n).foldl jsDigitStep (some a) =
      some (a * 10 ^ (decDigits fuel n).length + n) := by
  induction fuel with
  | zero => intro n a h; omega
  | succ fuel ih =>
    intro n a h
    by_cases h10 : n < 10
    · unfold decDigits
      rw [if_pos h10]
      obtain ⟨hdig, hval⟩ := digitChar_spec n h10
      simp [jsDigitStep, hdig, hval]
    · unfold decDigits
      rw [if_neg h10]
      have hdiv : n / 10 < fuel := by
        have : n / 10 < n := Nat.div_lt_self (by omega) (by omega)
        omega
      rw [List.foldl_append, ih (n / 10) a hdiv]
      obtain ⟨hdig, hval⟩ := digitChar_spec (n % 10) (Nat.mod_lt n (by omega))
      simp only [List.foldl_cons, List.foldl_nil, jsDigitStep, hdig, if_true, hval,
        List.length_append, List.length_cons, List.length_nil]
      congr 1
      have hmod := Nat.div_add_mod n 10
      ring_nf
      omega

theorem jsStrToNat_pad2 (n : Nat) : jsStrToNat (pad2 n).data = some n := by
  have hbase : jsStrToNat (jsNatToString n).data = some n := by
    show (decDigits (n + 1) n).foldl jsDigitStep (some 0) = some n
    rw [decDigits_foldl (n + 1) n 0 (Nat.lt_succ_self n)]
    simp
  unfold pad2 padStart2
  split
  · show ("0" ++ jsNatToString n).data.foldl jsDigitStep (some 0) = some n
    rw [String.data_append]
    show ('0' :: (jsNatToString n).data).foldl jsDigitStep (some 0) = some n
    rw [List.foldl_cons]
    show (jsNatToString n).data.foldl jsDigitStep (jsDigitStep (some 0) '0') = some n
    have : jsDigitStep (some 0) '0' = some 0 := by decide
    rw [this]
    exact hbase
  · exact hbase

theorem decDigits_all_digit (fuel : Nat) : ∀ n, n < fuel →
    ∀ c ∈ decDigits fuel n, c.isDigit = true := by
  induction fuel with
  | zero => intro n h; omega
  | succ fuel ih =>
    intro n h c hc
    unfold decDigits at hc
    by_cases h10 : n < 10
    · rw [if_pos h10] at hc
      rcases List.mem_singleton.mp hc with rfl
      exact (digitChar_spec n h10).1
    · rw [if_neg h10] at hc
      rcases List.mem_append.mp hc with hm | hm
      · have hdiv : n / 10 < fuel := by
          have : n / 10 < n := Nat.div_lt_self (by omega) (by omega)
          omega
        exact ih (n / 10) hdiv c hm
      · rcases List.mem_singleton.mp hm with rfl
        exact (digitChar_spec (n % 10) (Nat.mod_lt n (by omega))).1

theorem pad2_all_digit (n : Nat) : ∀ c ∈ (pad2 n).data, c.isDigit = true := by
  intro c hc
  unfold pad2 padStart2 at hc
  split at hc
  · rw [String.data_append] at hc
    rcases List.mem_append.mp hc with hm | hm
    · have hc0 : c = '0' := by simpa using hm
      subst hc0; decide
    · exact decDigits_all_digit (n + 1) n (Nat.lt_succ_self n) c hm
  · exact decDigits_all_digit (n + 1) n (Nat.lt_succ_self n) c hc

theorem pad2_not_contains_colon (n : Nat) : (pad2 n).data.contains ':' = false := by
  rw [List.contains_eq_any_beq, List.any_eq_false]
  intro c hc hbeq
  have hceq : ':' = c := eq_of_beq hbeq
  rcases hceq
  exact absurd (pad2_all_digit n ':' hc) (by decide)

theorem splitOnChar_ne_nil (c : Char) (l : List Char) : splitOnChar c l ≠ [] := by
  cases l with
  | nil => simp [splitOnChar]
  | cons a cs =>
    unfold splitOnChar
    rcases splitOnChar c cs with _ | ⟨seg, segs⟩
    · simp
    · by_cases hac : a = c <;> simp [hac]

theorem splitOnChar_no_sep {c : Char} : ∀ {l : List Char},
    l.contains c = false → splitOnChar c l = [l] := by
  intro l
  induction l with
  | nil => intro _; rfl
  | cons a cs ih =>
    intro h
    rw [List.contains_eq_any_beq, List.any_cons, Bool.or_eq_false_iff] at h
    obtain ⟨ha, hcs⟩ := h
    have h1 : splitOnChar c (a :: cs) =
        match splitOnChar c cs with
        | [] => [[]]
        | seg :: segs => if a = c then [] :: seg :: segs else (a :: seg) :: segs := rfl
    rw [h1, ih (by rw [List.contains_eq_any_beq]; exact hcs)]
    have hne : ¬ a = c := by
      intro hEq; subst hEq; simp at ha
    simp [hne]

theorem splitOnChar_append {c : Char} : ∀ {l1 : List Char} (l2 : List Char),
    l1.contains c = false →
    splitOnChar c (l1 ++ c :: l2) = l1 :: splitOnChar c l2 := by
  intro l1
  induction l1 with
  | nil =>
    intro l2 _
    show splitOnChar c (c :: l2) = [] :: splitOnChar c l2
    have h1 : splitOnChar c (c :: l2) =
        match splitOnChar c l2 with
        | [] => [[]]
        | seg :: segs => if c = c then [] :: seg :: segs else (c :: seg) :: segs := rfl
    rw [h1]
    rcases hsp : splitOnChar c l2 with _ | ⟨seg, segs⟩
    · exact absurd hsp (splitOnChar_ne_nil c l2)
    · simp
  | cons a cs ih =>
    intro l2 h
    rw [List.contains_eq_any_beq, List.any_cons, Bool.or_eq_false_iff] at h
    obtain ⟨ha, hcs⟩ := h
    show splitOnChar c (a :: (cs ++ c :: l2)) = (a :: cs) :: splitOnChar c l2
    have h1 : splitOnChar c (a :: (cs ++ c :: l2)) =
        match splitOnChar c (cs ++ c :: l2) with
        | [] => [[]]
        | seg :: segs => if a = c then [] :: seg :: segs else (a :: seg) :: segs := rfl
    rw [h1, ih l2 (by rw [List.contains_eq_any_beq]; exact hcs)]
    have hne : ¬ a = c := by
      intro hEq; subst hEq; simp at ha
    simp [hne]

theorem splitOnChar_timeString (h m s : Nat) :
    splitOnChar ':' (pad2 h ++ ":" ++ pad2 m ++ ":" ++ pad2 s).data =
      [(pad2 h).data, (pad2 m).data, (pad2 s).data] := by
  have hdata : (pad2 h ++ ":" ++ pad2 m ++ ":" ++ pad2 s).data =
      (pad2 h).data ++ ':' :: ((pad2 m).data ++ ':' :: (pad2 s).data) := by
    simp [String.data_append]
  rw [hdata, splitOnChar_append _ (pad2_not_contains_colon h),
      splitOnChar_append _ (pad2_not_contains_colon m),
      splitOnChar_no_sep (pad2_not_contains_colon s)]

theorem minutesOfTime_timeString (h m s : Nat) :
    minutesOfTime (pad2 h ++ ":" ++ pad2 m ++ ":" ++ pad2 s) = some (h * 60 + m) := by
  unfold minutesOfTime
  rw [splitOnChar_timeString]
  simp [jsStrToNat_pad2]

theorem computeEndTime_timeString (h m s dur : Nat) :
    computeEndTime (pad2 h ++ ":" ++ pad2 m ++ ":" ++ pad2 s) dur =
      pad2 ((h * 60 + m + dur) / 60) ++ ":" ++ pad2 ((h * 60 + m + dur) % 60) ++ ":" ++ pad2 s := by
  unfold computeEndTime
  rw [splitOnChar_timeString]
  simp [jsStrToNat_pad2]

theorem minutesOfTime_computeEndTime (h m s dur : Nat) :
    minutesOfTime (computeEndTime (pad2 h ++ ":" ++ pad2 m ++ ":" ++ pad2 s) dur) =
      some (h * 60 + m + dur) := by
  rw [computeEndTime_timeString, minutesOfTime_timeString]
  congr 1
  omega

theorem normalizeSubmittedTime_two_comps (t : String) (ht : t ≠ "")
    (h2 : (splitOnChar ':' t.data).length = 2) :
    normalizeSubmittedTime t = t ++ ":00" := by
  unfold normalizeSubmittedTime
  have hcontains : t.data.contains ':' = true := by
    by_contra hcon
    rw [Bool.not_eq_true] at hcon
    rw [splitOnChar_no_sep hcon] at h2
    simp at h2
  have hmem : ':' ∈ t.data := by simpa using hcontains
  simp [hmem, h2, ht]

theorem routeSlots_empty_of_ge {o c : Nat} (h : c ≤ o) (dur : Nat)
    (bk : List Appointment) : routeSlots o c dur bk = [] := by
  unfold routeSlots slotGrid
  have h0 : c - o = 0 := by omega
  rw [h0]
  rfl
/-! ### Claim theorems -/

/-- C1: the weekday used by the available-slots route handler
(`parseLocalDate(date).getDay()`) is a pure function of `(y, m, d)`,
invariant under the process timezone; but `db.getAvailableTimeSlots`
derives the weekday from `new Date("YYYY-MM-DD")` (UTC midnight read in
local time), which at 2024-01-01 yields Monday under UTC and Sunday under
UTC-05:00 — so the claim fails for the db variant.  (The route handler and
`parseLocalDate` exist precisely to fix this; the spec calls timezone
invariance the single most safety-critical invariant, so the db code is
the slip.) -/
theorem claim_C1_weekday_timezone :
    (∀ tz tz' : Int, ∀ y m d : Nat, routeDayName tz y m d = routeDayName tz' y m d) ∧
    dbDayName 0 2024 1 1 = "Monday" ∧
    dbDayName (-300) 2024 1 1 = "Sunday" ∧
    dbDayName 0 2024 1 1 ≠ dbDayName (-300) 2024 1 1 := by
  refine ⟨?_, by decide, by decide, by decide⟩
  intro tz tz' y m d
  unfold routeDayName
  rw [routeGetDay_tz_invariant tz tz' y m d]

/-- C2: every slot start produced by either slot-generation loop (the
route handler's, and `db.getAvailableTimeSlots`'s buffer variant) lies at
or after opening, ends by closing, and its half-open interval overlaps no
booked appointment. -/
theorem claim_C2_slot_soundness (openM closeM dur : Nat)
    (booked : List Appointment) (s : Nat) :
    (s ∈ routeSlots openM closeM dur booked →
      openM ≤ s ∧ s + dur ≤ closeM ∧
        ∀ b ∈ booked, ¬ halfOpenOverlap s (s + dur) b.start_time b.end_time) ∧
    (s ∈ dbSlots openM closeM dur booked →
      openM ≤ s ∧ s + dur ≤ closeM ∧
        ∀ b ∈ booked, ¬ halfOpenOverlap s (s + dur) b.start_time b.end_time) :=
  ⟨fun h => mem_routeSlots h, fun h => mem_dbSlots h⟩

/-- C2 witness: slot 10:30 (630) on a 09:00-17:00 day with a 10:00-10:30
appointment, 30-minute service. -/
theorem claim_C2_witness :
    540 ≤ 630 ∧ 630 + 30 ≤ 1020 ∧
      ∀ b ∈ [apptW], ¬ halfOpenOverlap 630 (630 + 30) b.start_time b.end_time :=
  (claim_C2_slot_soundness 540 1020 30 [apptW] 630).1 (by decide)

/-- C3 counterexample: the claim says `createAppointment` flags a conflict
iff `a < d ∧ b > c`; for requested `[630, 660)` against existing
`[600, 630)` (back-to-back, no half-open overlap) the SQL predicate still
reports a conflict. -/
theorem claim_C3_counterexample :
    sqlConflict 630 660 600 630 = true ∧ ¬ halfOpenOverlap 630 660 600 630 := by
  constructor
  · decide
  · unfold halfOpenOverlap; omega

/-- C3 amended: for well-formed intervals (`a < b`, `c < d`) the
`createAppointment` availability predicate reports a conflict iff the
closed intervals touch or overlap, `a ≤ d ∧ b ≥ c` — strictly broader than
the availability engine's half-open predicate (it additionally rejects
exactly the touching cases `a = d` or `b = c`). -/
theorem claim_C3_amended (a b c d : Nat) (hab : a < b) (hcd : c < d) :
    sqlConflict a b c d = true ↔ a ≤ d ∧ b ≥ c := by
  unfold sqlConflict
  simp only [Bool.or_eq_true, Bool.and_eq_true, decide_eq_true_eq]
  omega

/-- C3 witness for the amended claim at `[0,30)` against `[30,60)`. -/
theorem claim_C3_witness : sqlConflict 0 30 30 60 = true :=
  (claim_C3_amended 0 30 30 60 (by decide) (by decide)).mpr (by omega)

/-- C4: every failure of `createAppointment` leaves the ledger unchanged;
the three storage-level causes (unknown/inactive service, conflicting
appointment, blocked date) each raise their own distinct error message;
and on success exactly one row is appended, with status `confirmed` and
end time equal to start time plus the service duration. -/
theorem claim_C4_transaction (st : DBState) (b : BookingData) :
    (∀ e, (createAppointment st b).2 = Except.error e →
      (createAppointment st b).1 = st) ∧
    (missingRequiredField b = none → emailFormatOk b.email = true →
      phoneFormatOk b.phone = true → dateFormatOk b.appointmentDate = true →
      timeFormatOk b.startTime = true → serviceIdFormatOk b.serviceId = true →
      (st.services.find?
          (fun sv => sv.service_id == sanitizeInput b.serviceId && sv.is_active) = none →
        createAppointment st b = (st, .error "Invalid or inactive service")) ∧
      (∀ svc, st.services.find?
          (fun sv => sv.service_id == sanitizeInput b.serviceId && sv.is_active) = some svc →
        ((conflictingAppointments st b svc.duration_minutes).length > 0 →
          createAppointment st b = (st, .error "Selected time slot is already booked")) ∧
        (conflictingAppointments st b svc.duration_minutes = [] →
          b.appointmentDate ∈ st.blocked_dates →
          createAppointment st b =
            (st, .error "Selected date is not available for booking")) ∧
        (conflictingAppointments st b svc.duration_minutes = [] →
          b.appointmentDate ∉ st.blocked_dates →
          createAppointment st b =
            ({ st with appointments := st.appointments ++ [insertedRow b svc] },
             .ok (st.appointments.length + 1)) ∧
          (insertedRow b svc).status = "confirmed" ∧
          (insertedRow b svc).end_time =
            (insertedRow b svc).start_time + svc.duration_minutes))) ∧
    ("Invalid or inactive service" ≠ "Selected time slot is already booked" ∧
      "Invalid or inactive service" ≠ "Selected date is not available for booking" ∧
      "Selected time slot is already booked" ≠
        "Selected date is not available for booking") := by
  refine ⟨fun e h => createAppointment_error_state h, ?_, by decide⟩
  intro hm he hp hd ht hs
  refine ⟨fun hfind => createAppointment_service_missing hm he hp hd ht hs hfind,
    fun svc hfind => ⟨fun hc => createAppointment_conflict hm he hp hd ht hs hfind hc,
      fun hc hb => createAppointment_blocked hm he hp hd ht hs hfind hc hb,
      fun hc hb => ⟨createAppointment_success hm he hp hd ht hs hfind hc hb, rfl, rfl⟩⟩⟩

/-- C4 witness: a fully valid request against an empty ledger succeeds,
appends exactly the expected confirmed row, and returns id 1. -/
theorem claim_C4_witness :
    createAppointment stW bW =
      ({ stW with appointments := stW.appointments ++ [insertedRow bW svcW] },
       .ok (stW.appointments.length + 1)) ∧
    (insertedRow bW svcW).status = "confirmed" ∧
    (insertedRow bW svcW).end_time = (insertedRow bW svcW).start_time + svcW.duration_minutes :=
  (((claim_C4_transaction stW bW).2.1 (by decide) (by decide) (by decide) (by decide)
    (by decide) (by decide)).2 svcW (by decide)).2.2 (by decide) (by decide)

theorem handler_ok_shape (tz : Int) (st : DBState) (date sid : String)
    (bh : BusinessHours) (svc : Service)
    (hdate : date ≠ "") (hsid : sid ≠ "")
    (hfmt : dateFormatOk date = true)
    (hblocked : st.blocked_dates.contains date = false)
    (hbh : st.business_hours.find?
      (fun r => r.day_of_week ==
        routeDayName tz (parseDateComponents date).1 (parseDateComponents date).2.1
          (parseDateComponents date).2.2) = some bh)
    (hopen : bh.is_open = true)
    (hsvc : st.services.find?
      (fun sv => sv.service_id == sid && sv.is_active) = some svc) :
    availableSlotsHandler tz st (some date) (some sid) =
      .ok (routeSlots bh.open_minutes bh.close_minutes
            (if svc.duration_minutes = 0 then 30 else svc.duration_minutes)
            (st.appointments.filter fun ap =>
              ap.appointment_date == date && ap.status != "cancelled")) date := by
  unfold availableSlotsHandler
  simp [isFalsyStr, hdate, hsid, hfmt, hblocked, hbh, hopen, hsvc]
  simpa using hblocked

theorem handler_notFound_shape (tz : Int) (st : DBState) (date sid : String)
    (bh : BusinessHours)
    (hdate : date ≠ "") (hsid : sid ≠ "")
    (hfmt : dateFormatOk date = true)
    (hblocked : st.blocked_dates.contains date = false)
    (hbh : st.business_hours.find?
      (fun r => r.day_of_week ==
        routeDayName tz (parseDateComponents date).1 (parseDateComponents date).2.1
          (parseDateComponents date).2.2) = some bh)
    (hopen : bh.is_open = true)
    (hsvc : st.services.find?
      (fun sv => sv.service_id == sid && sv.is_active) = none) :
    availableSlotsHandler tz st (some date) (some sid) =
      .notFound "Service not found or inactive" := by
  unfold availableSlotsHandler
  simp [isFalsyStr, hdate, hsid, hfmt, hblocked, hbh, hopen, hsvc]
  simpa using hblocked

theorem handler_blocked_shape (tz : Int) (st : DBState) (date sid : String)
    (hdate : date ≠ "") (hsid : sid ≠ "")
    (hfmt : dateFormatOk date = true)
    (hblocked : st.blocked_dates.contains date = true) :
    availableSlotsHandler tz st (some date) (some sid) =
      .blockedDate "This date is not available for booking" := by
  have hmem : date ∈ st.blocked_dates := by simpa using hblocked
  unfold availableSlotsHandler
  simp [isFalsyStr, hdate, hsid, hfmt, hmem]

/-- C5 counterexample: with Monday hours open 10:00 / close 09:00
(`open > close`), the available-slots handler neither fails nor signals
any configuration error: it silently returns the successful empty slot
list `{availableSlots: [], requestedDate}` (no `open < close` validation
exists anywhere in the code). -/
theorem claim_C5_counterexample :
    bhC5.close_minutes < bhC5.open_minutes ∧
    availableSlotsHandler 0 stC5 (some "2024-01-01") (some "clean") =
      .ok [] "2024-01-01" := by
  decide

/-- C5 amended: when the business-hours record for the requested weekday
has `open ≥ close`, the availability computation silently returns the
ordinary successful response with an empty slot list; no configuration
error is signalled. -/
theorem claim_C5_amended (tz : Int) (st : DBState) (date sid : String)
    (bh : BusinessHours) (svc : Service)
    (hdate : date ≠ "") (hsid : sid ≠ "")
    (hfmt : dateFormatOk date = true)
    (hblocked : st.blocked_dates.contains date = false)
    (hbh : st.business_hours.find?
      (fun r => r.day_of_week ==
        routeDayName tz (parseDateComponents date).1 (parseDateComponents date).2.1
          (parseDateComponents date).2.2) = some bh)
    (hopen : bh.is_open = true)
    (hge : bh.close_minutes ≤ bh.open_minutes)
    (hsvc : st.services.find?
      (fun sv => sv.service_id == sid && sv.is_active) = some svc) :
    availableSlotsHandler tz st (some date) (some sid) = .ok [] date := by
  rw [handler_ok_shape tz st date sid bh svc hdate hsid hfmt hblocked hbh hopen hsvc,
    routeSlots_empty_of_ge hge]

/-- C5 witness: the amended claim at the concrete misconfigured state. -/
theorem claim_C5_witness :
    availableSlotsHandler 0 stC5 (some "2024-01-01") (some "clean") =
      .ok [] "2024-01-01" :=
  claim_C5_amended 0 stC5 "2024-01-01" "clean" bhC5 svcC5 (by decide) (by decide)
    (by decide) (by decide) (by decide) (by decide) (by decide) (by decide)

/-- C6: a blocked date always gets the 200 response with the empty slot
list and the dedicated "This date is not available for booking" message,
which differs from the closed-day response (different constructor and
message) and from every plain slot-list response (which carries no
message at all). -/
theorem claim_C6_blocked_distinct (tz : Int) (st : DBState) (date sid : String)
    (hdate : date ≠ "") (hsid : sid ≠ "")
    (hfmt : dateFormatOk date = true)
    (hblocked : st.blocked_dates.contains date = true) :
    availableSlotsHandler tz st (some date) (some sid) =
      .blockedDate "This date is not available for booking" ∧
    (∀ ms, SlotsResponse.blockedDate "This date is not available for booking" ≠
      SlotsResponse.closedDay ms) ∧
    (∀ slots rd, SlotsResponse.blockedDate "This date is not available for booking" ≠
      SlotsResponse.ok slots rd) ∧
    "This date is not available for booking" ≠ "The office is closed on this day" := by
  refine ⟨handler_blocked_shape tz st date sid hdate hsid hfmt hblocked, ?_, ?_, by decide⟩
  · intro ms h
    exact SlotsResponse.noConfusion h
  · intro slots rd h
    exact SlotsResponse.noConfusion h

/-- C6 witness: the blocked Monday 2024-01-08 in the concrete state. -/
theorem claim_C6_witness :
    availableSlotsHandler 0 stC6 (some "2024-01-08") (some "clean") =
      .blockedDate "This date is not available for booking" :=
  (claim_C6_blocked_distinct 0 stC6 "2024-01-08" "clean" (by decide) (by decide)
    (by decide) (by decide)).1

/-- C7 counterexample: a serviceId that resolves to no active service does
not always produce the 404 not-found result — on a blocked date the
handler answers with the blocked-date empty-slot response before ever
looking at the service. -/
theorem claim_C7_counterexample :
    stC7.services.find? (fun sv => sv.service_id == "ghost" && sv.is_active) = none ∧
    availableSlotsHandler 0 stC7 (some "2024-01-01") (some "ghost") =
      .blockedDate "This date is not available for booking" ∧
    availableSlotsHandler 0 stC7 (some "2024-01-01") (some "ghost") ≠
      .notFound "Service not found or inactive" := by
  decide

/-- C7 amended: provided the date is well-formed, not blocked, and the
office is open on its weekday (the checks that precede the service
lookup), a serviceId that resolves to no active service yields the
explicit 404 `Service not found or inactive` result, never a plain
slot-list response and never the blocked-date response.  (The controller
variant surfaces the same condition as an explicit 400, also never an
empty slot list.) -/
theorem claim_C7_amended (tz : Int) (st : DBState) (date sid : String)
    (bh : BusinessHours)
    (hdate : date ≠ "") (hsid : sid ≠ "")
    (hfmt : dateFormatOk date = true)
    (hblocked : st.blocked_dates.contains date = false)
    (hbh : st.business_hours.find?
      (fun r => r.day_of_week ==
        routeDayName tz (parseDateComponents date).1 (parseDateComponents date).2.1
          (parseDateComponents date).2.2) = some bh)
    (hopen : bh.is_open = true)
    (hsvc : st.services.find?
      (fun sv => sv.service_id == sid && sv.is_active) = none) :
    availableSlotsHandler tz st (some date) (some sid) =
      .notFound "Service not found or inactive" ∧
    (∀ slots rd, SlotsResponse.notFound "Service not found or inactive" ≠
      SlotsResponse.ok slots rd) ∧
    (∀ msg, SlotsResponse.notFound "Service not found or inactive" ≠
      SlotsResponse.blockedDate msg) := by
  refine ⟨handler_notFound_shape tz st date sid bh hdate hsid hfmt hblocked hbh hopen hsvc,
    ?_, ?_⟩
  · intro slots rd h
    exact SlotsResponse.noConfusion h
  · intro msg h
    exact SlotsResponse.noConfusion h

/-- C7 witness: unknown service on an open, unblocked Monday. -/
theorem claim_C7_witness :
    availableSlotsHandler 0 stC7b (some "2024-01-01") (some "ghost") =
      .notFound "Service not found or inactive" :=
  (claim_C7_amended 0 stC7b "2024-01-01" "ghost" bhMon (by decide) (by decide)
    (by decide) (by decide) (by decide) (by decide) (by decide)).1

/-- C8: the controller normalizes any non-empty submitted `HH:MM` time by
appending `":00"` (in particular `"14:00"` becomes `"14:00:00"`); the end
time stored by `createAppointment` is start plus duration in integer
minute arithmetic: concretely `"14:00:00"` with duration 45 gives
`"14:45:00"`, and in general the end-time string of any `HH:MM:SS`-shaped
start encodes exactly `start-minutes + duration`. -/
theorem claim_C8_time_round_trip :
    (∀ t : String, t ≠ "" → (splitOnChar ':' t.data).length = 2 →
      normalizeSubmittedTime t = t ++ ":00") ∧
    normalizeSubmittedTime "14:00" = "14:00:00" ∧
    computeEndTime "14:00:00" 45 = "14:45:00" ∧
    (∀ h m s dur : Nat,
      minutesOfTime (computeEndTime (pad2 h ++ ":" ++ pad2 m ++ ":" ++ pad2 s) dur) =
        some (h * 60 + m + dur)) :=
  ⟨normalizeSubmittedTime_two_comps, by decide, by decide, minutesOfTime_computeEndTime⟩

/-- C8 witness: the general normalization clause applied at "09:15". -/
theorem claim_C8_witness : normalizeSubmittedTime "09:15" = "09:15:00" :=
  claim_C8_time_round_trip.1 "09:15" (by decide) (by decide)

/-- C9: the slot list of `db.getAvailableTimeSlots` (the buffer variant)
is always a sublist — the same elements in the same ascending order — of
the route handler's slot list on identical inputs, and the two coincide
whenever the service duration is a multiple of 30 minutes (the buffer is
then zero). -/
theorem claim_C9_db_refines_route (openM closeM dur : Nat)
    (booked : List Appointment) :
    (dbSlots openM closeM dur booked).Sublist (routeSlots openM closeM dur booked) ∧
    (dur % 30 = 0 →
      dbSlots openM closeM dur booked = routeSlots openM closeM dur booked) :=
  ⟨dbSlots_sublist_routeSlots openM closeM dur booked,
   dbSlots_eq_routeSlots_of_dvd openM closeM dur booked⟩

/-- C9 witness: a 09:00-11:00 day with a 30-minute service. -/
theorem claim_C9_witness :
    (dbSlots 540 660 30 [apptW]).Sublist (routeSlots 540 660 30 [apptW]) ∧
    dbSlots 540 660 30 [apptW] = routeSlots 540 660 30 [apptW] :=
  ⟨(claim_C9_db_refines_route 540 660 30 [apptW]).1,
   (claim_C9_db_refines_route 540 660 30 [apptW]).2 (by decide)⟩

/-- C10: `formatTimeString` is total and never throws: every non-string
argument yields `"00:00:00"`; every string whose hour or minute component
is `NaN` under JS `Number` (e.g. `"1400"`, which has no colon, so its
minute component is `undefined`) yields `"00:00:00"`; and when both
components parse, the result is the zero-padded `HH:MM:00` rendering of
the (AM/PM-adjusted) components. -/
theorem claim_C10_formatTimeString_total :
    (∀ p, formatTimeStringFn .nonString p = "00:00:00") ∧
    (∀ s p, (ftsParse s p).1 = none ∨ (ftsParse s p).2.1 = none →
      formatTimeStringFn (.str s) p = "00:00:00") ∧
    formatTimeStringFn (.str "1400") none = "00:00:00" ∧
    (∀ s p h m per, ftsParse s p = (some h, some m, per) →
      formatTimeStringFn (.str s) p = pad2 (adjustHours h per) ++ ":" ++ pad2 m ++ ":00") := by
  refine ⟨fun p => rfl, ?_, by decide, ?_⟩
  · intro s p hnone
    rcases hp : ftsParse s p with ⟨h1, m1, per1⟩
    rw [hp] at hnone
    simp only [formatTimeStringFn]
    rw [hp]
    rcases hnone with h | h
    · simp only at h
      subst h
      cases m1 <;> rfl
    · simp only at h
      subst h
      cases h1 <;> rfl
  · intro s p h m per hp
    simp only [formatTimeStringFn]
    rw [hp]

/-- C10 witness: the NaN-component clause applied to the colon-less string
"1430". -/
theorem claim_C10_witness : formatTimeStringFn (.str "1430") none = "00:00:00" :=
  claim_C10_formatTimeString_total.2.1 "1430" none (Or.inr (by decide))
